import Mathlib

/-!
# redishappy: sentinel monitor (`sentinel/monitor.go`)

A shallow embedding of the sentinel monitor: the switch-master message parser
(`parseSwitchMasterMessage`), the message interpreter
(`dealWithSentinelMessage`), the event loop (`Monitor.loop`), the shutdown
sequence (`Monitor.shutDownMonitor`), construction (`NewMonitor`) and start-up
(`Monitor.StartMonitoringMasterEvents`).

Go strings are modelled by Lean strings.  The only bytes the code inspects are
the ASCII space, the ASCII signs and the ASCII digits, none of which occurs
inside a multi-byte UTF-8 sequence, so splitting and digit tests on code points
agree with the byte-wise ones of the Go library.

Effects (observer notifications, channel sends, calls on the two redis clients)
are recorded, in program order, in a list of `Action`s.
-/

namespace Redishappy

/-! ## Errors -/

/-- The two sentinel errors of package `strconv`: `ErrSyntax` and `ErrRange`. -/
inductive NumErrKind where
  | ErrSyntax
  | ErrRange
deriving DecidableEq, Repr

/-- Go `error` values the monitor can see: `errors.New(text)`, a
`*strconv.NumError` (function, offending input, kind), or an error handed over
by the redis transport. -/
inductive GoError where
  | errorString (text : String)
  | numError (func : String) (num : String) (err : NumErrKind)
  | transport (text : String)
deriving DecidableEq, Repr

/-! ## `strings.Split` with a one-byte separator -/

/-- The fields of `s` between the occurrences of `sep`, as `strings.Split`
(`genSplit` with `n = -1`) produces them for a separator of length one: every
occurrence of `sep` ends a field, fields may be empty, and a string without
`sep` is returned whole. -/
def splitChars (sep : Char) : List Char → List (List Char)
  | [] => [[]]
  | c :: cs =>
    if c = sep then [] :: splitChars sep cs
    else
      match splitChars sep cs with
      | [] => [[c]]
      | f :: fs => (c :: f) :: fs

/-- Go `strings.Split(s, sep)` for a separator `sep` of length one. -/
def Split (s : String) (sep : Char) : List String :=
  (splitChars sep s.data).map String.mk

/-! ## `strconv.Atoi` -/

/-- The constant `maxUint64 = 1<<64 - 1` of package `strconv`. -/
def maxUint64 : Nat := 2 ^ 64 - 1

/-- The digit loop of `strconv.ParseUint(s, 10, bitSize)`: `n` is the `uint64`
accumulator, `maxVal = 1<<bitSize - 1`.  A byte that is not a decimal digit is
a syntax error; an accumulator at or above `cutoff = maxUint64/10 + 1`, or a
sum that wraps around or exceeds `maxVal`, is a range error (returned with
`maxVal`). -/
def parseUintLoop (maxVal : Nat) : Nat → List Char → Nat × Option NumErrKind
  | n, [] => (n, none)
  | n, c :: cs =>
    if 48 ≤ c.toNat ∧ c.toNat ≤ 57 then
      let d := c.toNat - 48
      if n ≥ maxUint64 / 10 + 1 then (maxVal, some NumErrKind.ErrRange)
      else
        let n10 := (n * 10) % 2 ^ 64
        let n1 := (n10 + d) % 2 ^ 64
        if n1 < n10 ∨ n1 > maxVal then (maxVal, some NumErrKind.ErrRange)
        else parseUintLoop maxVal n1 cs
    else (0, some NumErrKind.ErrSyntax)

/-- Go `strconv.ParseUint(s, 10, bitSize)` for `1 ≤ bitSize ≤ 64`. -/
def ParseUint (s : List Char) (bitSize : Nat) : Nat × Option NumErrKind :=
  if s = [] then (0, some NumErrKind.ErrSyntax)
  else parseUintLoop (2 ^ bitSize - 1) 0 s

/-- The sign switch at the head of `strconv.ParseInt`: a leading `+` is
dropped, a leading `-` is dropped and remembered. -/
def stripSign : List Char → Bool × List Char
  | '+' :: r => (false, r)
  | '-' :: r => (true, r)
  | r => (false, r)

/-- Go `strconv.ParseInt(s, 10, bitSize)`: an optional sign, then
`ParseUint`; a syntax error of `ParseUint` is returned at once, and otherwise
the magnitude must be below `cutoff = 1<<(bitSize-1)` for a non-negative number
and at most `cutoff` for a negative one. -/
def ParseInt (s : List Char) (bitSize : Nat) : Int × Option NumErrKind :=
  if s = [] then (0, some NumErrKind.ErrSyntax)
  else
    let neg := (stripSign s).1
    let r := ParseUint (stripSign s).2 bitSize
    let un := r.1
    if r.2 = some NumErrKind.ErrSyntax then (0, some NumErrKind.ErrSyntax)
    else
      let cutoff : Nat := 2 ^ (bitSize - 1)
      if neg = false ∧ un ≥ cutoff then
        (((cutoff - 1 : Nat) : Int), some NumErrKind.ErrRange)
      else if neg = true ∧ un > cutoff then
        (-(cutoff : Int), some NumErrKind.ErrRange)
      else (if neg = true then -(un : Int) else (un : Int), none)

/-- Go `strconv.Atoi(s)`, that is `ParseInt(s, 10, 0)` converted to `int`,
where `intSize` (32 or 64) is the width of `int` on the platform.  The error,
when there is one, is a `*NumError` carrying the whole input. -/
def Atoi (intSize : Nat) (s : String) : Int × Option GoError :=
  match ParseInt s.data intSize with
  | (i, none) => (i, none)
  | (i, some k) => (i, some (GoError.numError "Atoi" s k))

/-! ## Data model -/

/-- The struct `types.MasterSwitchedEvent`, with the fields the monitor
fills in; the default values are Go's zero values. -/
structure MasterSwitchedEvent where
  Name : String := ""
  OldMasterIp : String := ""
  OldMasterPort : Int := 0
  NewMasterIp : String := ""
  NewMasterPort : Int := 0
deriving DecidableEq, Repr

/-- The struct `types.ConnectionEvent`. -/
structure ConnectionEvent where
  Connected : Bool := false
deriving DecidableEq, Repr

/-- Function `parseSwitchMasterMessage` of `monitor.go`: split on the space, demand
five fields, convert the third and the fifth with `Atoi`. -/
def parseSwitchMasterMessage (intSize : Nat) (message : String) :
    MasterSwitchedEvent × Option GoError :=
  match Split message ' ' with
  | [b0, b1, b2, b3, b4] =>
    match Atoi intSize b2 with
    | (_, some err) => ({}, some err)
    | (oldmasterport, none) =>
      match Atoi intSize b4 with
      | (_, some err) => ({}, some err)
      | (newmasterport, none) =>
        ({ Name := b0, OldMasterIp := b1, OldMasterPort := oldmasterport,
           NewMasterIp := b3, NewMasterPort := newmasterport }, none)
  | _ => ({}, some (GoError.errorString "Invalid message recieved"))

/-! ## What the claims call a base-10 integer -/

/-- A decimal digit, `'0'` to `'9'`. -/
def isDecimalDigit (c : Char) : Bool := decide (48 ≤ c.toNat ∧ c.toNat ≤ 57)

/-- The number a digit string denotes when read on top of the number `n`
already read (no bound: a natural number). -/
def decimalFrom (n : Nat) (ds : List Char) : Nat :=
  ds.foldl (fun a c => a * 10 + (c.toNat - 48)) n

/-- The natural number a digit string denotes in base 10. -/
def decimalValue (ds : List Char) : Nat := decimalFrom 0 ds

/-- The magnitude of an unsigned base-10 numeral: at least one character, all
of them decimal digits. -/
def base10Natural (ds : List Char) : Option Nat :=
  if ds ≠ [] ∧ ds.all isDecimalDigit = true then some (decimalValue ds) else none

/-- The integer a string denotes as a base-10 integer, if it is one: an
optional sign `+` or `-` followed by one or more decimal digits.  No bound is
put on the value. -/
def base10Integer (s : String) : Option Int :=
  match s.data with
  | '+' :: ds => (base10Natural ds).map (fun n => (n : Int))
  | '-' :: ds => (base10Natural ds).map (fun n => -(n : Int))
  | ds => (base10Natural ds).map (fun n => (n : Int))

/-- The values of Go's `int` on a platform whose `int` has `intSize` bits. -/
def inIntRange (intSize : Nat) (v : Int) : Prop :=
  -(2 ^ (intSize - 1) : Int) ≤ v ∧ v < (2 ^ (intSize - 1) : Int)

instance (intSize : Nat) (v : Int) : Decidable (inIntRange intSize v) := by
  unfold inIntRange; infer_instance

/-- A string that is a base-10 integer whose value is a value of Go's `int`
at width `intSize`. -/
def isIntNumeral (intSize : Nat) (s : String) : Prop :=
  ∃ v, base10Integer s = some v ∧ inIntRange intSize v

/-! ## Messages, notifications and recorded effects -/

/-- Modelled from the spec: `types.Sentinel`, declared outside `monitor.go`:
the identity of a sentinel, carrying its network location. -/
structure Sentinel where
  Location : String
deriving DecidableEq, Repr

/-- The method `GetLocation` of `types.Sentinel`. -/
def Sentinel.GetLocation (s : Sentinel) : String := s.Location

/-- Modelled from the spec: the message-type tag of a `redis.RedisPubSubReply`,
declared outside `monitor.go`: `redis.Confirmation`, `redis.Message`, or any
other tag. -/
inductive MessageType where
  | Confirmation
  | Message
  | Other (tag : Nat)
deriving DecidableEq, Repr

/-- Modelled from the spec: `redis.RedisPubSubReply`, declared outside
`monitor.go`, as the values of its four accessors `Channel()`,
`MessageType()`, `Message()` and `Err()` (`none` is Go's `nil` error). -/
structure RedisPubSubReply where
  Channel : String
  MessageType : MessageType
  Message : String
  Err : Option GoError
deriving DecidableEq, Repr

/-- The four notifications the monitor hands to `manager.Notify`; the field
values are the ones `monitor.go` fills in. -/
inductive Notification where
  | SentinelPing (sentinel : Sentinel)
  | SentinelClustersMonitoredUpdate (sentinel : Sentinel) (clusters : List String)
  | SentinelAdded (sentinel : Sentinel)
  | SentinelLost (sentinel : Sentinel)
deriving DecidableEq, Repr

/-- The effects of the monitor on its collaborators, one constructor per call
or channel send in `monitor.go`. -/
inductive Action where
  /-- Call `redis.NewPubSubClient(uri, ...)`, with whether the connection opened. -/
  | NewPubSubClient (uri : String) (opened : Bool)
  /-- Call `redis.NewSentinelClient(sentinel, ...)`, with whether the connection opened. -/
  | NewSentinelClient (sentinel : Sentinel) (opened : Bool)
  /-- Call `m.pubSubClient.Start(key)`. -/
  | PubSubStart (key : String)
  /-- Call `m.manager.Notify(event)`. -/
  | Notify (event : Notification)
  /-- Send `switchmasterchannel <- event`. -/
  | SendSwitchMaster (event : MasterSwitchedEvent)
  /-- Send `connectionChannel <- event`. -/
  | SendConnection (event : ConnectionEvent)
  /-- Call `m.client.Ping()`. -/
  | Ping
  /-- Call `m.client.FindKnownClusters()`. -/
  | FindKnownClusters
  /-- Call `m.client.FindConnectedSentinels(clustername)`. -/
  | FindConnectedSentinels (clustername : String)
  /-- Call `m.client.Close()`. -/
  | ClientClose
  /-- Call `m.pubSubClient.Close()`. -/
  | PubSubClose
deriving DecidableEq, Repr

/-- Modelled from the spec: the connection factory `redis.RedisConnection`,
declared outside `monitor.go`, as the outcome (`none` is success) of the two
constructors of package `redis` that open a connection through it. -/
structure RedisConnection where
  NewPubSubClient : String → Int → Option GoError
  NewSentinelClient : Sentinel → Int → Option GoError

/-- The struct `Monitor`.  Its two clients, its channel and its manager are
handles on collaborators; what the monitor does to them is recorded as
`Action`s. -/
structure Monitor where
  sentinel : Sentinel
deriving DecidableEq, Repr

/-- What the command client answers during one health check: the error of
`Ping()`, the result of `FindKnownClusters()`, and the result of the `i`-th
call (from 0) of `FindConnectedSentinels`, given the cluster name asked for. -/
structure Tick where
  Ping : Option GoError
  FindKnownClusters : Except GoError (List String)
  FindConnectedSentinels : Nat → String → Except GoError (List Sentinel)

/-- The branch the `select` of `Monitor.loop` takes in one iteration. -/
inductive Select where
  /-- Branch `case message := <-m.channel`. -/
  | recv (message : RedisPubSubReply)
  /-- Branch `case <-time.After(MonitorPingInterval)`, with the answers of the
  command client. -/
  | after (responses : Tick)

/-! ## The monitor -/

/-- Function `NewMonitor` of `monitor.go`: the returned pair `(*Monitor, error)` and the
effects performed. -/
def NewMonitor (sentinel : Sentinel) (redisConnection : RedisConnection) (tcpKeepAlive : Int) :
    (Option Monitor × Option GoError) × List Action :=
  let uri := sentinel.GetLocation
  match redisConnection.NewPubSubClient uri tcpKeepAlive with
  | some err => ((none, some err), [Action.NewPubSubClient uri false])
  | none =>
    match redisConnection.NewSentinelClient sentinel tcpKeepAlive with
    | some err =>
      ((none, some err),
        [Action.NewPubSubClient uri true, Action.NewSentinelClient sentinel false])
    | none =>
      ((some { sentinel := sentinel }, none),
        [Action.NewPubSubClient uri true, Action.NewSentinelClient sentinel true])

/-- Method `Monitor.shutDownMonitor` of `monitor.go`. -/
def Monitor.shutDownMonitor (m : Monitor) : List Action :=
  [Action.Notify (Notification.SentinelLost m.sentinel), Action.ClientClose, Action.PubSubClose]

/-- Function `dealWithSentinelMessage` of `monitor.go`: the sends it performs and the
boolean it returns (`true` asks the loop to shut down). -/
def dealWithSentinelMessage (intSize : Nat) (message : RedisPubSubReply) : List Action × Bool :=
  if message.Err ≠ none then ([], true)
  else
    let sent : Option (List Action) :=
      if message.MessageType = MessageType.Message then
        match parseSwitchMasterMessage intSize message.Message with
        | (_, some _) => none
        | (event, none) => some [Action.SendSwitchMaster event]
      else some []
    match sent with
    | none => ([], true)
    | some sends =>
      if message.MessageType = MessageType.Confirmation then
        if message.Message = "1" then
          (sends ++ [Action.SendConnection { Connected := true }], false)
        else (sends, true)
      else (sends, false)

/-- The `for _, clustername := range knownClusters` loop of `Monitor.loop`,
from the `i`-th call of `FindConnectedSentinels` on: the effects, and whether
`break L` was reached (after `shutDownMonitor`). -/
def forEachCluster (m : Monitor) (find : Nat → String → Except GoError (List Sentinel)) :
    Nat → List String → List Action × Bool
  | _, [] => ([], false)
  | i, clustername :: rest =>
    match find i clustername with
    | Except.error _ =>
      (Action.FindConnectedSentinels clustername :: m.shutDownMonitor, true)
    | Except.ok sentinels =>
      let r := forEachCluster m find (i + 1) rest
      (Action.FindConnectedSentinels clustername ::
        (sentinels.map (fun connectedsentinel =>
          Action.Notify (Notification.SentinelAdded connectedsentinel)) ++ r.1), r.2)

/-- The `time.After` branch of `Monitor.loop`: the effects of one health check,
and whether `break L` was reached. -/
def healthCheck (m : Monitor) (t : Tick) : List Action × Bool :=
  match t.Ping with
  | some _ => (Action.Ping :: m.shutDownMonitor, true)
  | none =>
    match t.FindKnownClusters with
    | Except.error _ =>
      ([Action.Ping, Action.Notify (Notification.SentinelPing m.sentinel),
        Action.FindKnownClusters] ++ m.shutDownMonitor, true)
    | Except.ok knownClusters =>
      let r := forEachCluster m t.FindConnectedSentinels 0 knownClusters
      ([Action.Ping, Action.Notify (Notification.SentinelPing m.sentinel),
        Action.FindKnownClusters,
        Action.Notify (Notification.SentinelClustersMonitoredUpdate m.sentinel knownClusters)]
        ++ r.1, r.2)

/-- One iteration of the `for` of `Monitor.loop`: the effects, and whether
`break L` was reached. -/
def iteration (intSize : Nat) (m : Monitor) : Select → List Action × Bool
  | Select.recv message =>
    let r := dealWithSentinelMessage intSize message
    if r.2 = true then (r.1 ++ m.shutDownMonitor, true) else (r.1, false)
  | Select.after t => healthCheck m t

/-- The outcome of running `Monitor.loop` against a sequence of `select`
events: the effects in order, whether the loop has exited through `break L`,
and the events it never handled. -/
structure LoopResult where
  trace : List Action
  exited : Bool
  unhandled : List Select

/-- Method `Monitor.loop` of `monitor.go`, run against the events its `select` will
see, in order.  The loop leaves only through `break L`; when the events run out
first it is still waiting in `select` (`exited = false`). -/
def Monitor.loop (intSize : Nat) (m : Monitor) : List Select → LoopResult
  | [] => { trace := [], exited := false, unhandled := [] }
  | e :: rest =>
    let r := iteration intSize m e
    if r.2 = true then { trace := r.1, exited := true, unhandled := rest }
    else
      let r' := Monitor.loop intSize m rest
      { trace := r.1 ++ r'.trace, exited := r'.exited, unhandled := r'.unhandled }

/-- Method `Monitor.StartMonitoringMasterEvents` of `monitor.go`, given the error of
`pubSubClient.Start` and the events the loop started by `go m.loop(...)` will
see: the returned error and the effects, those of the loop included. -/
def Monitor.StartMonitoringMasterEvents (intSize : Nat) (m : Monitor) (startErr : Option GoError)
    (events : List Select) : Option GoError × List Action :=
  let key := "+switch-master"
  match startErr with
  | some err => (some err, [Action.PubSubStart key, Action.PubSubClose])
  | none => (none, Action.PubSubStart key :: (m.loop intSize events).trace)

/-! ## Reading a trace -/

/-- The three effects of the shutdown sequence: a `SentinelLost` notification
and the two `Close` calls. -/
def Action.isShutdown : Action → Bool
  | Action.Notify (Notification.SentinelLost _) => true
  | Action.ClientClose => true
  | Action.PubSubClose => true
  | _ => false

/-- The peer announced by an effect, when the effect is a `SentinelAdded`
notification. -/
def Action.addedSentinel : Action → Option Sentinel
  | Action.Notify (Notification.SentinelAdded s) => some s
  | _ => none

/-- The peers announced by the `SentinelAdded` notifications of a trace, in
order. -/
def addedSentinels (trace : List Action) : List Sentinel :=
  trace.filterMap Action.addedSentinel

/-- The cluster asked for by an effect, when the effect is a call of
`FindConnectedSentinels`. -/
def Action.queriedCluster : Action → Option String
  | Action.FindConnectedSentinels c => some c
  | _ => none

/-- The cluster names `FindConnectedSentinels` was called with in a trace, in
order. -/
def queriedClusters (trace : List Action) : List String :=
  trace.filterMap Action.queriedCluster

/-- Whether the subscription connection is open after a trace: the last
effect on it was a successful open, not a `Close`. -/
def pubSubOpen (trace : List Action) : Bool :=
  trace.foldl (fun isOpen a =>
    match a with
    | Action.NewPubSubClient _ true => true
    | Action.PubSubClose => false
    | _ => isOpen) false

/-- Whether the command-client connection is open after a trace: the last
effect on it was a successful open, not a `Close`. -/
def clientOpen (trace : List Action) : Bool :=
  trace.foldl (fun isOpen a =>
    match a with
    | Action.NewSentinelClient _ true => true
    | Action.ClientClose => false
    | _ => isOpen) false

/-- A list of effects none of which belongs to the shutdown sequence. -/
@[reducible] def NoShutdown (l : List Action) : Prop := ∀ a ∈ l, a.isShutdown = false

/-- The shape of the effects of a piece of the loop body that reports whether
it reached `break L`: if it did, the effects end with the shutdown sequence,
which occurs nowhere before; if it did not, no shutdown effect occurs. -/
@[reducible] def ShutdownShape (m : Monitor) (r : List Action × Bool) : Prop :=
  (r.2 = true → ∃ pre, r.1 = pre ++ m.shutDownMonitor ∧ NoShutdown pre) ∧
  (r.2 = false → NoShutdown r.1)

/-- The effects of the peer discovery of a health check on the clusters `cs`,
asked from the `i`-th call on, when every call succeeds and the `j`-th call
returns `peers j`: each call is followed by one `SentinelAdded` notification
per peer returned. -/
def peerDiscovery (peers : Nat → List Sentinel) (i : Nat) (cs : List String) : List Action :=
  (List.enumFrom i cs).flatMap (fun p =>
    Action.FindConnectedSentinels p.2 ::
      (peers p.1).map (fun s => Action.Notify (Notification.SentinelAdded s)))

/-! ## Sample inputs -/

/-- A sentinel to monitor. -/
def sampleSentinel : Sentinel := { Location := "10.0.0.5:26379" }

/-- A peer sentinel. -/
def samplePeer : Sentinel := { Location := "10.0.0.6:26379" }

/-- A health check whose ping and cluster discovery succeed with the clusters
alpha, beta and gamma, and whose peer discovery answers the first call with the
same peer twice and fails from the second call on. -/
def sampleTick : Tick :=
  { Ping := none
    FindKnownClusters := Except.ok ["alpha", "beta", "gamma"]
    FindConnectedSentinels := fun i _ =>
      if i = 0 then Except.ok [samplePeer, samplePeer]
      else Except.error (GoError.transport "i/o timeout") }

/-- A health check whose ping fails. -/
def samplePingFailure : Tick :=
  { Ping := some (GoError.transport "i/o timeout")
    FindKnownClusters := Except.ok ["alpha"]
    FindConnectedSentinels := fun _ _ => Except.ok [samplePeer] }

/-- The confirmation of the subscription to the switch-master topic. -/
def sampleConfirmation : RedisPubSubReply :=
  { Channel := "+switch-master", MessageType := MessageType.Confirmation, Message := "1",
    Err := none }

/-- A connection factory on which the subscription connection opens and the
command-client connection is refused. -/
def sampleHalfOpenConnection : RedisConnection :=
  { NewPubSubClient := fun _ _ => none
    NewSentinelClient := fun _ _ => some (GoError.transport "connection refused") }

/-- A connection factory on which both connections open. -/
def sampleConnection : RedisConnection :=
  { NewPubSubClient := fun _ _ => none
    NewSentinelClient := fun _ _ => none }

/-! ## Lemmas on `Atoi` -/

theorem decimalFrom_cons (n : Nat) (c : Char) (cs : List Char) :
    decimalFrom n (c :: cs) = decimalFrom (n * 10 + (c.toNat - 48)) cs := rfl

theorem le_decimalFrom (ds : List Char) : ∀ n, n ≤ decimalFrom n ds := by
  induction ds with
  | nil => intro n; exact Nat.le_refl n
  | cons c cs ih =>
    intro n
    rw [decimalFrom_cons]
    have := ih (n * 10 + (c.toNat - 48))
    omega

theorem parseUintLoop_ok (M : Nat) (hM : M < 2 ^ 64) (ds : List Char) :
    ∀ n, ds.all isDecimalDigit = true → decimalFrom n ds ≤ M →
      parseUintLoop M n ds = (decimalFrom n ds, none) := by
  induction ds with
  | nil => intro n _ _; rfl
  | cons c cs ih =>
    intro n hd hle
    rw [decimalFrom_cons] at hle ⊢
    simp only [List.all_cons, Bool.and_eq_true, isDecimalDigit, decide_eq_true_eq] at hd
    have hmono := le_decimalFrom cs (n * 10 + (c.toNat - 48))
    have hM' : M < 18446744073709551616 := by simpa using hM
    have hn10 : n * 10 % 18446744073709551616 = n * 10 := by omega
    have hn1 : (n * 10 + (c.toNat - 48)) % 18446744073709551616 = n * 10 + (c.toNat - 48) := by
      omega
    have hcut : ¬ n ≥ maxUint64 / 10 + 1 := by
      have : maxUint64 / 10 + 1 = 1844674407370955162 := by decide
      omega
    simp only [parseUintLoop, hd, and_self, if_true, hcut, if_false, Nat.reducePow, hn10, hn1]
    rw [if_neg (by omega)]
    exact ih _ hd.2 hle

theorem parseUintLoop_err (M : Nat) (hM : M < 2 ^ 64) (ds : List Char) :
    ∀ n, n ≤ M → ¬ (ds.all isDecimalDigit = true ∧ decimalFrom n ds ≤ M) →
      parseUintLoop M n ds = (0, some NumErrKind.ErrSyntax) ∨
      parseUintLoop M n ds = (M, some NumErrKind.ErrRange) := by
  induction ds with
  | nil =>
    intro n hn h
    exact absurd ⟨rfl, hn⟩ h
  | cons c cs ih =>
    intro n hn h
    have hM' : M < 18446744073709551616 := by simpa using hM
    have hc10 : maxUint64 / 10 + 1 = 1844674407370955162 := by decide
    by_cases hc : 48 ≤ c.toNat ∧ c.toNat ≤ 57
    · by_cases hcut : n ≥ maxUint64 / 10 + 1
      · right
        simp only [parseUintLoop, hc, and_self, if_true, hcut]
      · have hn10 : n * 10 % 18446744073709551616 = n * 10 := by omega
        by_cases hov : (n * 10 + (c.toNat - 48)) % 18446744073709551616 < n * 10 ∨
            (n * 10 + (c.toNat - 48)) % 18446744073709551616 > M
        · right
          simp only [parseUintLoop, hc, and_self, if_true, hcut, if_false, Nat.reducePow,
            hn10, hov]
        · have hn1 : (n * 10 + (c.toNat - 48)) % 18446744073709551616
              = n * 10 + (c.toNat - 48) := by omega
          have hle : n * 10 + (c.toNat - 48) ≤ M := by omega
          have hrec := ih (n * 10 + (c.toNat - 48)) hle (by
            intro hh
            apply h
            refine ⟨?_, ?_⟩
            · simp only [List.all_cons, Bool.and_eq_true, isDecimalDigit, decide_eq_true_eq]
              exact ⟨hc, hh.1⟩
            · rw [decimalFrom_cons]; exact hh.2)
          simp only [parseUintLoop, hc, and_self, if_true, hcut, if_false, Nat.reducePow,
            hn10, hov, hn1]
          rw [hn1] at hov
          simp only [hov, if_false]
          exact hrec
    · left
      simp only [parseUintLoop, hc, if_false]

theorem ParseUint_ok (w : Nat) (hw : w = 32 ∨ w = 64) (ds : List Char) (n : Nat)
    (h : base10Natural ds = some n) (hle : n ≤ 2 ^ w - 1) :
    ParseUint ds w = (n, none) := by
  unfold base10Natural at h
  split_ifs at h with hd
  have hn : decimalValue ds = n := by simpa using h
  have hM : 2 ^ w - 1 < 2 ^ 64 := by
    rcases hw with rfl | rfl <;> decide
  unfold ParseUint
  rw [if_neg hd.1]
  rw [← hn] at hle ⊢
  exact parseUintLoop_ok _ hM ds 0 hd.2 hle

theorem ParseUint_err (w : Nat) (hw : w = 32 ∨ w = 64) (ds : List Char)
    (h : ∀ n, base10Natural ds = some n → 2 ^ w - 1 < n) :
    ParseUint ds w = (0, some NumErrKind.ErrSyntax) ∨
    ParseUint ds w = (2 ^ w - 1, some NumErrKind.ErrRange) := by
  have hM : 2 ^ w - 1 < 2 ^ 64 := by
    rcases hw with rfl | rfl <;> decide
  unfold ParseUint
  by_cases hnil : ds = []
  · left; rw [if_pos hnil]
  · rw [if_neg hnil]
    apply parseUintLoop_err _ hM ds 0 (Nat.zero_le _)
    rintro ⟨hd, hle⟩
    have := h (decimalValue ds) (by unfold base10Natural; rw [if_pos ⟨hnil, hd⟩])
    unfold decimalValue at this
    omega

theorem base10Integer_eq (s : String) :
    base10Integer s = (base10Natural (stripSign s.data).2).map
      (fun (n : Nat) => if (stripSign s.data).1 = true then -(n : Int) else (n : Int)) := by
  unfold base10Integer stripSign
  split <;> simp <;> (generalize base10Natural _ = o; cases o <;> rfl)

theorem base10Natural_nil : base10Natural [] = none := by
  simp [base10Natural]

/-- The value a string has under `ParseInt` at width `w`, when it has one:
the base-10 integer it denotes, provided it is a value of `int`. -/
theorem ParseInt_ok (w : Nat) (hw : w = 32 ∨ w = 64) (s : String) (v : Int)
    (hv : base10Integer s = some v) (hr : inIntRange w v) :
    ParseInt s.data w = (v, none) := by
  rw [base10Integer_eq] at hv
  obtain ⟨n, hn, hnv⟩ := Option.map_eq_some'.mp hv
  have hne : s.data ≠ [] := by
    intro h0
    rw [h0] at hn
    simp [stripSign, base10Natural_nil] at hn
  unfold inIntRange at hr
  have hbound : n ≤ 2 ^ w - 1 ∧ (2:Int) ^ (w - 1) = ((2 ^ (w - 1) : Nat) : Int) := by
    rcases hw with rfl | rfl <;> (constructor <;> [skip; norm_num]) <;>
      (split_ifs at hnv <;> norm_num at hr ⊢ <;> omega)
  have hu := ParseUint_ok w hw _ n hn hbound.1
  unfold ParseInt
  rw [if_neg hne]
  simp only [hu]
  rw [hbound.2] at hr
  generalize (2 ^ (w - 1) : Nat) = c at hr ⊢
  cases hneg : (stripSign s.data).1 with
  | true =>
    rw [hneg] at hnv
    simp only [if_true] at hnv ⊢
    have h1 : ¬ n > c := by omega
    simp [h1, hnv]
  | false =>
    rw [hneg] at hnv
    have hnv' : (n : Int) = v := by simpa using hnv
    have h1 : ¬ n ≥ c := by omega
    simp [h1, hnv']

/-- Go `ParseInt` at width `w` reports an error on every string that is not a
base-10 integer with a value in the range of `int`. -/
theorem ParseInt_err (w : Nat) (hw : w = 32 ∨ w = 64) (s : String)
    (h : ∀ v, base10Integer s = some v → ¬ inIntRange w v) :
    (ParseInt s.data w).2 ≠ none := by
  by_cases hne : s.data = []
  · unfold ParseInt; rw [if_pos hne]; simp
  have hc : ∃ c : Nat, 2 ^ (w - 1) = c ∧ 2 ^ w - 1 = 2 * c - 1 ∧ 2 ≤ c ∧
      (2 : Int) ^ (w - 1) = (c : Int) := by
    rcases hw with rfl | rfl <;> exact ⟨_, rfl, by norm_num, by norm_num, by norm_num⟩
  obtain ⟨c, hc1, hc2, hc3, hc4⟩ := hc
  unfold inIntRange at h
  rw [base10Integer_eq, hc4] at h
  unfold ParseInt
  rw [if_neg hne]
  simp only [hc1]
  have hrangeErr : ParseUint (stripSign s.data).2 w = (2 ^ w - 1, some NumErrKind.ErrRange) →
      (if (ParseUint (stripSign s.data).2 w).2 = some NumErrKind.ErrSyntax then
        ((0 : Int), some NumErrKind.ErrSyntax)
      else if (stripSign s.data).1 = false ∧ (ParseUint (stripSign s.data).2 w).1 ≥ c then
        (((c - 1 : Nat) : Int), some NumErrKind.ErrRange)
      else if (stripSign s.data).1 = true ∧ (ParseUint (stripSign s.data).2 w).1 > c then
        (-(c : Int), some NumErrKind.ErrRange)
      else (if (stripSign s.data).1 = true then -((ParseUint (stripSign s.data).2 w).1 : Int)
        else ((ParseUint (stripSign s.data).2 w).1 : Int), none)).2 ≠ none := by
    intro hu
    rw [hu, hc2]
    cases (stripSign s.data).1
    · have : 2 * c - 1 ≥ c := by omega
      simp [this]
    · have : 2 * c - 1 > c := by omega
      simp [this]
  have huErr : (∀ n, base10Natural (stripSign s.data).2 = some n → 2 ^ w - 1 < n) →
      (if (ParseUint (stripSign s.data).2 w).2 = some NumErrKind.ErrSyntax then
        ((0 : Int), some NumErrKind.ErrSyntax)
      else if (stripSign s.data).1 = false ∧ (ParseUint (stripSign s.data).2 w).1 ≥ c then
        (((c - 1 : Nat) : Int), some NumErrKind.ErrRange)
      else if (stripSign s.data).1 = true ∧ (ParseUint (stripSign s.data).2 w).1 > c then
        (-(c : Int), some NumErrKind.ErrRange)
      else (if (stripSign s.data).1 = true then -((ParseUint (stripSign s.data).2 w).1 : Int)
        else ((ParseUint (stripSign s.data).2 w).1 : Int), none)).2 ≠ none := by
    intro hall
    rcases ParseUint_err w hw _ hall with hu | hu
    · rw [hu]; simp
    · exact hrangeErr hu
  cases hcase : base10Natural (stripSign s.data).2 with
  | none =>
    apply huErr
    intro n hn
    rw [hcase] at hn
    cases hn
  | some n =>
    by_cases hbig : 2 ^ w - 1 < n
    · apply huErr
      intro m hm
      rw [hcase] at hm
      cases hm
      exact hbig
    · have hu := ParseUint_ok w hw _ n hcase (by omega)
      rw [hu]
      rw [hcase] at h
      cases hneg : (stripSign s.data).1 with
      | true =>
        have h' := h (-(n : Int)) (by simp [hneg])
        have : n > c := by omega
        simp [this]
      | false =>
        have h' := h (n : Int) (by simp [hneg])
        have : n ≥ c := by omega
        simp [this]

/-- Go `Atoi` on a base-10 integer with a value in the range of `int`. -/
theorem Atoi_ok (w : Nat) (hw : w = 32 ∨ w = 64) (s : String) (v : Int)
    (hv : base10Integer s = some v) (hr : inIntRange w v) :
    Atoi w s = (v, none) := by
  unfold Atoi
  rw [ParseInt_ok w hw s v hv hr]

/-- Go `Atoi` succeeds exactly on the base-10 integers with a value in the range
of `int`. -/
theorem Atoi_ok_iff (w : Nat) (hw : w = 32 ∨ w = 64) (s : String) :
    (Atoi w s).2 = none ↔ ∃ v, base10Integer s = some v ∧ inIntRange w v := by
  constructor
  · intro h
    by_contra hcon
    have herr := ParseInt_err w hw s (fun v hv hr => hcon ⟨v, hv, hr⟩)
    unfold Atoi at h
    rcases hp : ParseInt s.data w with ⟨i, _ | k⟩
    · rw [hp] at herr; exact herr rfl
    · rw [hp] at h; cases h
  · rintro ⟨v, hv, hr⟩
    rw [Atoi_ok w hw s v hv hr]

/-! ## Lemmas on `Split` -/

theorem splitChars_of_not_mem (sep : Char) (f : List Char) (h : sep ∉ f) :
    splitChars sep f = [f] := by
  induction f with
  | nil => rfl
  | cons c cs ih =>
    have hc : c ≠ sep := fun e => h (by simp [e])
    have hcs : sep ∉ cs := fun e => h (by simp [e])
    unfold splitChars
    rw [if_neg hc, ih hcs]

theorem splitChars_append (sep : Char) (f rest : List Char) (h : sep ∉ f) :
    splitChars sep (f ++ sep :: rest) = f :: splitChars sep rest := by
  induction f with
  | nil => simp [splitChars]
  | cons c cs ih =>
    have hc : c ≠ sep := fun e => h (by simp [e])
    have hcs : sep ∉ cs := fun e => h (by simp [e])
    rw [List.cons_append]
    conv_lhs => unfold splitChars
    rw [if_neg hc, ih hcs]

/-- Five space-free fields joined by single spaces split back into the five
fields. -/
theorem Split_five (f0 f1 f2 f3 f4 : String)
    (h0 : ' ' ∉ f0.data) (h1 : ' ' ∉ f1.data) (h2 : ' ' ∉ f2.data) (h3 : ' ' ∉ f3.data)
    (h4 : ' ' ∉ f4.data) :
    Split (f0 ++ " " ++ f1 ++ " " ++ f2 ++ " " ++ f3 ++ " " ++ f4) ' ' = [f0, f1, f2, f3, f4] := by
  have hd : (f0 ++ " " ++ f1 ++ " " ++ f2 ++ " " ++ f3 ++ " " ++ f4).data
      = f0.data ++ ' ' :: (f1.data ++ ' ' :: (f2.data ++ ' ' :: (f3.data ++ ' ' :: f4.data))) := by
    simp [String.data_append]
  unfold Split
  rw [hd, splitChars_append _ _ _ h0, splitChars_append _ _ _ h1, splitChars_append _ _ _ h2,
    splitChars_append _ _ _ h3, splitChars_of_not_mem _ _ h4]
  rfl

/-- A base-10 integer contains no space. -/
theorem space_not_mem_of_base10Integer (s : String) (v : Int) (h : base10Integer s = some v) :
    ' ' ∉ s.data := by
  have hnat : ∀ ds : List Char, (base10Natural ds).isSome = true → ' ' ∉ ds := by
    intro ds hds hmem
    unfold base10Natural at hds
    split_ifs at hds with hd
    · have := List.all_eq_true.mp hd.2 ' ' hmem
      exact absurd this (by decide)
    · cases hds
  unfold base10Integer at h
  split at h
  next ds heq =>
    rw [heq]
    intro hmem
    rcases List.mem_cons.mp hmem with e | e
    · exact absurd e (by decide)
    · exact hnat ds (by cases hb : base10Natural ds <;> simp_all) e
  next ds heq =>
    rw [heq]
    intro hmem
    rcases List.mem_cons.mp hmem with e | e
    · exact absurd e (by decide)
    · exact hnat ds (by cases hb : base10Natural ds <;> simp_all) e
  next =>
    exact hnat _ (by cases hb : base10Natural s.data <;> simp_all)

/-! ## Lemmas on the loop -/

theorem noShutdown_nil : NoShutdown [] := by
  intro a ha; cases ha

theorem noShutdown_append {l₁ l₂ : List Action} (h₁ : NoShutdown l₁) (h₂ : NoShutdown l₂) :
    NoShutdown (l₁ ++ l₂) := by
  intro a ha
  rcases List.mem_append.mp ha with h | h
  · exact h₁ a h
  · exact h₂ a h

theorem noShutdown_cons {a : Action} {l : List Action} (ha : a.isShutdown = false)
    (h : NoShutdown l) : NoShutdown (a :: l) := by
  intro b hb
  rcases List.mem_cons.mp hb with e | e
  · rw [e]; exact ha
  · exact h b e

theorem noShutdown_added (l : List Sentinel) :
    NoShutdown (l.map (fun s => Action.Notify (Notification.SentinelAdded s))) := by
  intro a ha
  obtain ⟨s, _, rfl⟩ := List.mem_map.mp ha
  rfl

theorem deal_transportError (w : Nat) (message : RedisPubSubReply) (h : message.Err ≠ none) :
    dealWithSentinelMessage w message = ([], true) := by
  unfold dealWithSentinelMessage
  rw [if_pos h]

theorem deal_message_parsed (w : Nat) (message : RedisPubSubReply) (event : MasterSwitchedEvent)
    (herr : message.Err = none) (ht : message.MessageType = MessageType.Message)
    (hp : parseSwitchMasterMessage w message.Message = (event, none)) :
    dealWithSentinelMessage w message = ([Action.SendSwitchMaster event], false) := by
  unfold dealWithSentinelMessage
  simp [herr, ht, hp]

theorem deal_message_unparsed (w : Nat) (message : RedisPubSubReply)
    (herr : message.Err = none) (ht : message.MessageType = MessageType.Message)
    (hp : (parseSwitchMasterMessage w message.Message).2 ≠ none) :
    dealWithSentinelMessage w message = ([], true) := by
  unfold dealWithSentinelMessage
  rcases hq : parseSwitchMasterMessage w message.Message with ⟨ev, _ | e⟩
  · rw [hq] at hp; exact absurd rfl hp
  · simp [herr, ht, hq]

theorem deal_confirmation_one (w : Nat) (message : RedisPubSubReply)
    (herr : message.Err = none) (ht : message.MessageType = MessageType.Confirmation)
    (hb : message.Message = "1") :
    dealWithSentinelMessage w message =
      ([Action.SendConnection { Connected := true }], false) := by
  unfold dealWithSentinelMessage
  simp [herr, ht, hb]

theorem deal_confirmation_other (w : Nat) (message : RedisPubSubReply)
    (herr : message.Err = none) (ht : message.MessageType = MessageType.Confirmation)
    (hb : message.Message ≠ "1") :
    dealWithSentinelMessage w message = ([], true) := by
  unfold dealWithSentinelMessage
  simp [herr, ht, hb]

theorem deal_otherType (w : Nat) (message : RedisPubSubReply)
    (herr : message.Err = none) (ht : message.MessageType ≠ MessageType.Message)
    (hc : message.MessageType ≠ MessageType.Confirmation) :
    dealWithSentinelMessage w message = ([], false) := by
  unfold dealWithSentinelMessage
  simp [herr, ht, hc]

theorem dealWithSentinelMessage_noShutdown (w : Nat) (message : RedisPubSubReply) :
    NoShutdown (dealWithSentinelMessage w message).1 := by
  by_cases herr : message.Err = none
  · by_cases ht : message.MessageType = MessageType.Message
    · rcases hq : parseSwitchMasterMessage w message.Message with ⟨ev, _ | e⟩
      · rw [deal_message_parsed w message ev herr ht hq]
        exact noShutdown_cons rfl noShutdown_nil
      · rw [deal_message_unparsed w message herr ht (by rw [hq]; simp)]
        exact noShutdown_nil
    · by_cases hc : message.MessageType = MessageType.Confirmation
      · by_cases hb : message.Message = "1"
        · rw [deal_confirmation_one w message herr hc hb]
          exact noShutdown_cons rfl noShutdown_nil
        · rw [deal_confirmation_other w message herr hc hb]
          exact noShutdown_nil
      · rw [deal_otherType w message herr ht hc]
        exact noShutdown_nil
  · rw [deal_transportError w message herr]
    exact noShutdown_nil

theorem forEachCluster_cons_error (m : Monitor)
    (find : Nat → String → Except GoError (List Sentinel)) (i : Nat) (c : String)
    (rest : List String) (e : GoError) (h : find i c = Except.error e) :
    forEachCluster m find i (c :: rest) =
      (Action.FindConnectedSentinels c :: m.shutDownMonitor, true) := by
  simp only [forEachCluster, h]

theorem forEachCluster_cons_ok (m : Monitor)
    (find : Nat → String → Except GoError (List Sentinel)) (i : Nat) (c : String)
    (rest : List String) (l : List Sentinel) (h : find i c = Except.ok l) :
    forEachCluster m find i (c :: rest) =
      (Action.FindConnectedSentinels c ::
        (l.map (fun s => Action.Notify (Notification.SentinelAdded s)) ++
          (forEachCluster m find (i + 1) rest).1),
        (forEachCluster m find (i + 1) rest).2) := by
  simp only [forEachCluster, h]

theorem healthCheck_pingFailed (m : Monitor) (t : Tick) (e : GoError) (h : t.Ping = some e) :
    healthCheck m t = (Action.Ping :: m.shutDownMonitor, true) := by
  simp only [healthCheck, h]

theorem healthCheck_clustersFailed (m : Monitor) (t : Tick) (e : GoError) (h : t.Ping = none)
    (hk : t.FindKnownClusters = Except.error e) :
    healthCheck m t =
      ([Action.Ping, Action.Notify (Notification.SentinelPing m.sentinel),
        Action.FindKnownClusters] ++ m.shutDownMonitor, true) := by
  simp only [healthCheck, h, hk]

theorem healthCheck_clusters (m : Monitor) (t : Tick) (cs : List String) (h : t.Ping = none)
    (hk : t.FindKnownClusters = Except.ok cs) :
    healthCheck m t =
      ([Action.Ping, Action.Notify (Notification.SentinelPing m.sentinel),
        Action.FindKnownClusters,
        Action.Notify (Notification.SentinelClustersMonitoredUpdate m.sentinel cs)] ++
          (forEachCluster m t.FindConnectedSentinels 0 cs).1,
        (forEachCluster m t.FindConnectedSentinels 0 cs).2) := by
  simp only [healthCheck, h, hk]

theorem iteration_recv_fatal (w : Nat) (m : Monitor) (message : RedisPubSubReply)
    (h : (dealWithSentinelMessage w message).2 = true) :
    iteration w m (Select.recv message) =
      ((dealWithSentinelMessage w message).1 ++ m.shutDownMonitor, true) := by
  simp only [iteration, h, if_true]

theorem iteration_recv_benign (w : Nat) (m : Monitor) (message : RedisPubSubReply)
    (h : (dealWithSentinelMessage w message).2 = false) :
    iteration w m (Select.recv message) = ((dealWithSentinelMessage w message).1, false) := by
  simp only [iteration, h, Bool.false_eq_true, if_false]

theorem loop_cons_exit (w : Nat) (m : Monitor) (e : Select) (rest : List Select)
    (h : (iteration w m e).2 = true) :
    m.loop w (e :: rest) = { trace := (iteration w m e).1, exited := true, unhandled := rest } := by
  simp only [Monitor.loop, h, if_true]

theorem loop_cons_continue (w : Nat) (m : Monitor) (e : Select) (rest : List Select)
    (h : (iteration w m e).2 = false) :
    m.loop w (e :: rest) =
      { trace := (iteration w m e).1 ++ (m.loop w rest).trace,
        exited := (m.loop w rest).exited, unhandled := (m.loop w rest).unhandled } := by
  simp only [Monitor.loop, h, Bool.false_eq_true, if_false]

theorem forEachCluster_shape (m : Monitor)
    (find : Nat → String → Except GoError (List Sentinel)) (cs : List String) :
    ∀ i, ShutdownShape m (forEachCluster m find i cs) := by
  induction cs with
  | nil =>
    intro i
    exact ⟨fun h => (by cases h), fun _ => noShutdown_nil⟩
  | cons c rest ih =>
    intro i
    cases hf : find i c with
    | error e =>
      rw [forEachCluster_cons_error m find i c rest e hf]
      refine ⟨fun _ => ⟨[Action.FindConnectedSentinels c], rfl, ?_⟩, fun h => by cases h⟩
      exact noShutdown_cons rfl noShutdown_nil
    | ok sentinels =>
      rw [forEachCluster_cons_ok m find i c rest sentinels hf]
      obtain ⟨h1, h2⟩ := ih (i + 1)
      refine ⟨fun h => ?_, fun h => ?_⟩
      · obtain ⟨pre, hpre, hclean⟩ := h1 h
        refine ⟨Action.FindConnectedSentinels c ::
          (sentinels.map (fun s => Action.Notify (Notification.SentinelAdded s)) ++ pre), ?_, ?_⟩
        · simp only [hpre, List.cons_append, List.append_assoc]
        · exact noShutdown_cons rfl (noShutdown_append (noShutdown_added _) hclean)
      · exact noShutdown_cons rfl (noShutdown_append (noShutdown_added _) (h2 h))

theorem healthCheck_shape (m : Monitor) (t : Tick) : ShutdownShape m (healthCheck m t) := by
  cases hp : t.Ping with
  | some e =>
    rw [healthCheck_pingFailed m t e hp]
    exact ⟨fun _ => ⟨[Action.Ping], rfl, noShutdown_cons rfl noShutdown_nil⟩, fun h => by cases h⟩
  | none =>
    cases hk : t.FindKnownClusters with
    | error e =>
      rw [healthCheck_clustersFailed m t e hp hk]
      refine ⟨fun _ => ⟨_, rfl, ?_⟩, fun h => by cases h⟩
      exact noShutdown_cons rfl (noShutdown_cons rfl (noShutdown_cons rfl noShutdown_nil))
    | ok knownClusters =>
      rw [healthCheck_clusters m t knownClusters hp hk]
      obtain ⟨h1, h2⟩ := forEachCluster_shape m t.FindConnectedSentinels knownClusters 0
      have hhead : NoShutdown [Action.Ping, Action.Notify (Notification.SentinelPing m.sentinel),
          Action.FindKnownClusters,
          Action.Notify (Notification.SentinelClustersMonitoredUpdate m.sentinel knownClusters)] :=
        noShutdown_cons rfl (noShutdown_cons rfl (noShutdown_cons rfl
          (noShutdown_cons rfl noShutdown_nil)))
      refine ⟨fun h => ?_, fun h => noShutdown_append hhead (h2 h)⟩
      obtain ⟨pre, hpre, hclean⟩ := h1 h
      refine ⟨_ ++ pre, ?_, noShutdown_append hhead hclean⟩
      simp only [hpre, List.append_assoc]

theorem iteration_shape (w : Nat) (m : Monitor) (e : Select) :
    ShutdownShape m (iteration w m e) := by
  cases e with
  | recv message =>
    have hclean := dealWithSentinelMessage_noShutdown w message
    cases hd : (dealWithSentinelMessage w message).2 with
    | true =>
      rw [iteration_recv_fatal w m message hd]
      exact ⟨fun _ => ⟨_, rfl, hclean⟩, fun h => by cases h⟩
    | false =>
      rw [iteration_recv_benign w m message hd]
      exact ⟨fun h => (by cases h), fun _ => hclean⟩
  | after t => exact healthCheck_shape m t

theorem loop_shape (w : Nat) (m : Monitor) (events : List Select) :
    ShutdownShape m ((m.loop w events).trace, (m.loop w events).exited) := by
  induction events with
  | nil => exact ⟨fun h => (by cases h), fun _ => noShutdown_nil⟩
  | cons e rest ih =>
    obtain ⟨h1, h2⟩ := iteration_shape w m e
    cases hi : (iteration w m e).2 with
    | true =>
      rw [loop_cons_exit w m e rest hi]
      exact ⟨fun _ => h1 hi, fun h => by cases h⟩
    | false =>
      rw [loop_cons_continue w m e rest hi]
      obtain ⟨g1, g2⟩ := ih
      refine ⟨fun h => ?_, fun h => noShutdown_append (h2 hi) (g2 h)⟩
      obtain ⟨pre, hpre, hclean⟩ := g1 h
      refine ⟨(iteration w m e).1 ++ pre, ?_, noShutdown_append (h2 hi) hclean⟩
      simp only at hpre
      simp only [hpre, List.append_assoc]

theorem loop_append_of_exited (w : Nat) (m : Monitor) (events more : List Select)
    (h : (m.loop w events).exited = true) :
    m.loop w (events ++ more) =
      { trace := (m.loop w events).trace, exited := true,
        unhandled := (m.loop w events).unhandled ++ more } := by
  induction events with
  | nil => cases h
  | cons e rest ih =>
    rw [List.cons_append]
    cases hi : (iteration w m e).2 with
    | true => rw [loop_cons_exit w m e _ hi, loop_cons_exit w m e _ hi]
    | false =>
      rw [loop_cons_continue w m e _ hi] at h ⊢
      rw [loop_cons_continue w m e _ hi, ih h]

theorem loop_append_of_not_exited (w : Nat) (m : Monitor) (events more : List Select)
    (h : (m.loop w events).exited = false) :
    m.loop w (events ++ more) =
      { trace := (m.loop w events).trace ++ (m.loop w more).trace,
        exited := (m.loop w more).exited,
        unhandled := (m.loop w more).unhandled } := by
  induction events with
  | nil => simp [Monitor.loop]
  | cons e rest ih =>
    rw [List.cons_append]
    cases hi : (iteration w m e).2 with
    | true => rw [loop_cons_exit w m e _ hi] at h; cases h
    | false =>
      rw [loop_cons_continue w m e _ hi] at h ⊢
      rw [loop_cons_continue w m e _ hi, ih h]
      simp only [List.append_assoc]

/-! ## The switch-master grammar (claims C1 and C2) -/

theorem parse_five (w : Nat) (b0 b1 b2 b3 b4 body : String)
    (hs : Split body ' ' = [b0, b1, b2, b3, b4]) :
    parseSwitchMasterMessage w body =
      match Atoi w b2 with
      | (_, some err) => ({}, some err)
      | (oldmasterport, none) =>
        match Atoi w b4 with
        | (_, some err) => ({}, some err)
        | (newmasterport, none) =>
          ({ Name := b0, OldMasterIp := b1, OldMasterPort := oldmasterport,
             NewMasterIp := b3, NewMasterPort := newmasterport }, none) := by
  unfold parseSwitchMasterMessage
  rw [hs]

theorem parse_not_five (w : Nat) (body : String) (hs : (Split body ' ').length ≠ 5) :
    parseSwitchMasterMessage w body = ({}, some (GoError.errorString "Invalid message recieved")) := by
  unfold parseSwitchMasterMessage
  split
  · rename_i heq
    rw [heq] at hs
    exact absurd rfl hs
  · rfl

/-- C1, as stated, fails: a five-field body whose third field is the base-10
integer 99999999999999999999 and whose fifth field is the base-10 integer 6380
is rejected, with a range error of `Atoi`, whether `int` has 64 or 32 bits. -/
theorem parseSwitchMasterMessage_port_out_of_range :
    Split "mycluster 10.0.0.1 99999999999999999999 10.0.0.2 6380" ' ' =
      ["mycluster", "10.0.0.1", "99999999999999999999", "10.0.0.2", "6380"] ∧
    base10Integer "99999999999999999999" = some 99999999999999999999 ∧
    base10Integer "6380" = some 6380 ∧
    parseSwitchMasterMessage 64 "mycluster 10.0.0.1 99999999999999999999 10.0.0.2 6380" =
      ({}, some (GoError.numError "Atoi" "99999999999999999999" NumErrKind.ErrRange)) ∧
    parseSwitchMasterMessage 32 "mycluster 10.0.0.1 99999999999999999999 10.0.0.2 6380" =
      ({}, some (GoError.numError "Atoi" "99999999999999999999" NumErrKind.ErrRange)) := by
  refine ⟨by decide, by decide, by decide, by decide, by decide⟩

/-- C1 (amended): for every body made of five fields joined by single spaces,
in which the first, second and fourth fields contain no space and the third and
fifth fields are base-10 integers whose values are values of Go's `int` (32 or
64 bits wide), `parseSwitchMasterMessage` succeeds and returns the event whose
`Name`, `OldMasterIp` and `NewMasterIp` are the first, second and fourth fields
unchanged and whose ports are the integer values of the third and fifth fields;
in particular the body "mycluster 10.0.0.1 6379 10.0.0.2 6380" yields
mycluster, 10.0.0.1, 6379, 10.0.0.2, 6380. -/
theorem parseSwitchMasterMessage_valid_body (intSize : Nat) (hw : intSize = 32 ∨ intSize = 64)
    (name oldIp oldPort newIp newPort : String) (oldValue newValue : Int)
    (hname : ' ' ∉ name.data) (hold : ' ' ∉ oldIp.data) (hnew : ' ' ∉ newIp.data)
    (ho : base10Integer oldPort = some oldValue) (hn : base10Integer newPort = some newValue)
    (hor : inIntRange intSize oldValue) (hnr : inIntRange intSize newValue) :
    parseSwitchMasterMessage intSize
        (name ++ " " ++ oldIp ++ " " ++ oldPort ++ " " ++ newIp ++ " " ++ newPort) =
      ({ Name := name, OldMasterIp := oldIp, OldMasterPort := oldValue,
         NewMasterIp := newIp, NewMasterPort := newValue }, none) ∧
    parseSwitchMasterMessage intSize "mycluster 10.0.0.1 6379 10.0.0.2 6380" =
      ({ Name := "mycluster", OldMasterIp := "10.0.0.1", OldMasterPort := 6379,
         NewMasterIp := "10.0.0.2", NewMasterPort := 6380 }, none) := by
  constructor
  · have hsplit := Split_five name oldIp oldPort newIp newPort hname hold
      (space_not_mem_of_base10Integer _ _ ho) hnew (space_not_mem_of_base10Integer _ _ hn)
    rw [parse_five intSize _ _ _ _ _ _ hsplit, Atoi_ok intSize hw _ _ ho hor,
      Atoi_ok intSize hw _ _ hn hnr]
  · rcases hw with rfl | rfl <;> decide

/-- Witness of C1 (amended) on a 64-bit platform, at the body
"redis-a 192.168.1.10 -1 Host.Example +7000": signs are accepted and case is
preserved. -/
theorem parseSwitchMasterMessage_valid_body_witness :
    parseSwitchMasterMessage 64
        ("redis-a" ++ " " ++ "192.168.1.10" ++ " " ++ "-1" ++ " " ++ "Host.Example" ++ " " ++ "+7000") =
      ({ Name := "redis-a", OldMasterIp := "192.168.1.10", OldMasterPort := -1,
         NewMasterIp := "Host.Example", NewMasterPort := 7000 }, none) :=
  (parseSwitchMasterMessage_valid_body 64 (Or.inr rfl) "redis-a" "192.168.1.10" "-1"
    "Host.Example" "+7000" (-1) 7000 (by decide) (by decide) (by decide) (by decide) (by decide)
    (by decide) (by decide)).1

/-- C2, as stated, fails: the body "c 10.0.0.1 6379 10.0.0.2 -99999999999999999999"
splits into exactly five fields and its third and fifth fields are base-10
integers, yet `parseSwitchMasterMessage` returns an error, whether `int` has 64
or 32 bits. -/
theorem parseSwitchMasterMessage_fails_on_integer_fields :
    (Split "c 10.0.0.1 6379 10.0.0.2 -99999999999999999999" ' ').length = 5 ∧
    base10Integer ((Split "c 10.0.0.1 6379 10.0.0.2 -99999999999999999999" ' ').getD 2 "") =
      some 6379 ∧
    base10Integer ((Split "c 10.0.0.1 6379 10.0.0.2 -99999999999999999999" ' ').getD 4 "") =
      some (-99999999999999999999) ∧
    (parseSwitchMasterMessage 64 "c 10.0.0.1 6379 10.0.0.2 -99999999999999999999").2 ≠ none ∧
    (parseSwitchMasterMessage 32 "c 10.0.0.1 6379 10.0.0.2 -99999999999999999999").2 ≠ none := by
  refine ⟨by decide, by decide, by decide, by decide, by decide⟩

/-- C2 (amended): for every body, `parseSwitchMasterMessage` returns an error
exactly when splitting the body on the space does not give five fields, or the
third or the fifth field is not a base-10 integer whose value is a value of
Go's `int` (32 or 64 bits wide); and whenever it returns an error the event
returned with it is the zero-valued `MasterSwitchedEvent`. -/
theorem parseSwitchMasterMessage_error_iff (intSize : Nat) (hw : intSize = 32 ∨ intSize = 64)
    (body : String) :
    ((parseSwitchMasterMessage intSize body).2 ≠ none ↔
      ((Split body ' ').length ≠ 5 ∨
        ¬ isIntNumeral intSize ((Split body ' ').getD 2 "") ∨
        ¬ isIntNumeral intSize ((Split body ' ').getD 4 ""))) ∧
    ((parseSwitchMasterMessage intSize body).2 ≠ none →
      (parseSwitchMasterMessage intSize body).1 = {}) := by
  by_cases hlen : (Split body ' ').length = 5
  · obtain ⟨b0, b1, b2, b3, b4, hs⟩ : ∃ b0 b1 b2 b3 b4, Split body ' ' = [b0, b1, b2, b3, b4] := by
      rcases hl : Split body ' ' with _ | ⟨b0, _ | ⟨b1, _ | ⟨b2, _ | ⟨b3, _ | ⟨b4, _ | ⟨b5, t⟩⟩⟩⟩⟩⟩ <;>
        rw [hl] at hlen <;> simp at hlen
      exact ⟨b0, b1, b2, b3, b4, rfl⟩
    rw [parse_five intSize _ _ _ _ _ _ hs, hs]
    have i2 := Atoi_ok_iff intSize hw b2
    have i4 := Atoi_ok_iff intSize hw b4
    unfold isIntNumeral
    simp only [List.length_cons, List.length_nil, ne_eq, not_true_eq_false, false_or,
      List.getD_cons_succ, List.getD_cons_zero]
    rcases h2 : Atoi intSize b2 with ⟨v2, _ | e2⟩
    · rcases h4 : Atoi intSize b4 with ⟨v4, _ | e4⟩
      · rw [h2] at i2; rw [h4] at i4
        simp only [true_iff] at i2 i4
        simp [i2, i4]
      · rw [h2] at i2; rw [h4] at i4
        simp only [true_iff] at i2
        have i4' : ¬ ∃ v, base10Integer b4 = some v ∧ inIntRange intSize v := by
          rw [← i4]; simp
        simp [i2, i4']
    · rw [h2] at i2
      have i2' : ¬ ∃ v, base10Integer b2 = some v ∧ inIntRange intSize v := by
        rw [← i2]; simp
      simp [i2']
  · rw [parse_not_five intSize body hlen]
    simp [hlen]

/-- Witness of C2 (amended) on a 64-bit platform, at the body
"mycluster 10.0.0.1 abc 10.0.0.2 6380", whose third field is not a number. -/
theorem parseSwitchMasterMessage_error_iff_witness :
    (parseSwitchMasterMessage 64 "mycluster 10.0.0.1 abc 10.0.0.2 6380").2 ≠ none ∧
    (parseSwitchMasterMessage 64 "mycluster 10.0.0.1 abc 10.0.0.2 6380").1 = {} := by
  have h := parseSwitchMasterMessage_error_iff 64 (Or.inr rfl)
    "mycluster 10.0.0.1 abc 10.0.0.2 6380"
  have hbad : (parseSwitchMasterMessage 64 "mycluster 10.0.0.1 abc 10.0.0.2 6380").2 ≠ none := by
    decide
  exact ⟨hbad, h.2 hbad⟩

/-! ## The shutdown sequence (claim C3) -/

/-- C3: in every execution of the loop that terminates, whatever made it
terminate, the effects end with the shutdown sequence and contain it once: one
`SentinelLost` notification for this sentinel, then the close of the command
client, then the close of the subscription client, with no `SentinelLost`
notification and no close anywhere before, so that `SentinelLost` is the last
notification; and the loop handles none of the events that come afterwards. -/
theorem loop_shutdown_exactly_once (intSize : Nat) (m : Monitor) (events : List Select)
    (h : (m.loop intSize events).exited = true) :
    ∃ pre, (m.loop intSize events).trace =
        pre ++ [Action.Notify (Notification.SentinelLost m.sentinel), Action.ClientClose,
          Action.PubSubClose] ∧
      (∀ s, Action.Notify (Notification.SentinelLost s) ∉ pre) ∧
      Action.ClientClose ∉ pre ∧ Action.PubSubClose ∉ pre ∧
      ∀ more, m.loop intSize (events ++ more) =
        { trace := (m.loop intSize events).trace, exited := true,
          unhandled := (m.loop intSize events).unhandled ++ more } := by
  obtain ⟨pre, hpre, hclean⟩ := (loop_shape intSize m events).1 h
  refine ⟨pre, hpre, ?_, ?_, ?_, fun more => loop_append_of_exited intSize m events more h⟩
  · intro s hs
    exact absurd (hclean _ hs) (by simp [Action.isShutdown])
  · intro hs
    exact absurd (hclean _ hs) (by decide)
  · intro hs
    exact absurd (hclean _ hs) (by decide)

/-- Witness of C3: a confirmed subscription followed by a health check whose
ping fails. -/
theorem loop_shutdown_exactly_once_witness :
    (Monitor.loop 64 { sentinel := { Location := "10.0.0.5:26379" } }
      [Select.recv { Channel := "+switch-master", MessageType := MessageType.Confirmation,
                     Message := "1", Err := none },
       Select.after { Ping := some (GoError.transport "i/o timeout"),
                      FindKnownClusters := Except.ok [],
                      FindConnectedSentinels := fun _ _ => Except.ok [] }]).exited = true ∧
    ∃ pre, (Monitor.loop 64 { sentinel := { Location := "10.0.0.5:26379" } }
      [Select.recv { Channel := "+switch-master", MessageType := MessageType.Confirmation,
                     Message := "1", Err := none },
       Select.after { Ping := some (GoError.transport "i/o timeout"),
                      FindKnownClusters := Except.ok [],
                      FindConnectedSentinels := fun _ _ => Except.ok [] }]).trace =
        pre ++ [Action.Notify (Notification.SentinelLost { Location := "10.0.0.5:26379" }),
          Action.ClientClose, Action.PubSubClose] ∧
      Action.ClientClose ∉ pre ∧ Action.PubSubClose ∉ pre := by
  refine ⟨by decide, ?_⟩
  obtain ⟨pre, h1, _, h3, h4, _⟩ := loop_shutdown_exactly_once 64
    { sentinel := { Location := "10.0.0.5:26379" } }
    [Select.recv { Channel := "+switch-master", MessageType := MessageType.Confirmation,
                   Message := "1", Err := none },
     Select.after { Ping := some (GoError.transport "i/o timeout"),
                    FindKnownClusters := Except.ok [],
                    FindConnectedSentinels := fun _ _ => Except.ok [] }] (by decide)
  exact ⟨pre, h1, h3, h4⟩

/-! ## The message interpreter (claims C4, C5 and C6) -/

theorem Atoi_abc (w : Nat) : (Atoi w "abc").2 ≠ none := by
  simp [Atoi, ParseInt, stripSign, ParseUint, parseUintLoop]

theorem parse_abc (w : Nat) :
    (parseSwitchMasterMessage w "mycluster 10.0.0.1 abc 10.0.0.2 6380").2 ≠ none := by
  have hs : Split "mycluster 10.0.0.1 abc 10.0.0.2 6380" ' ' =
      ["mycluster", "10.0.0.1", "abc", "10.0.0.2", "6380"] := by decide
  rw [parse_five w _ _ _ _ _ _ hs]
  have h := Atoi_abc w
  rcases h2 : Atoi w "abc" with ⟨v, _ | e⟩
  · rw [h2] at h; exact absurd rfl h
  · simp

theorem loop_recv_fatal (w : Nat) (m : Monitor) (message : RedisPubSubReply) (rest : List Select)
    (h : dealWithSentinelMessage w message = ([], true)) :
    m.loop w (Select.recv message :: rest) =
      { trace := m.shutDownMonitor, exited := true, unhandled := rest } := by
  have hi : iteration w m (Select.recv message) = (m.shutDownMonitor, true) := by
    rw [iteration_recv_fatal w m message (by rw [h]), h]
    rfl
  rw [loop_cons_exit w m _ rest (by rw [hi]), hi]

theorem loop_recv_benign (w : Nat) (m : Monitor) (message : RedisPubSubReply) (rest : List Select)
    (sends : List Action) (h : dealWithSentinelMessage w message = (sends, false)) :
    m.loop w (Select.recv message :: rest) =
      { trace := sends ++ (m.loop w rest).trace, exited := (m.loop w rest).exited,
        unhandled := (m.loop w rest).unhandled } := by
  have hi : iteration w m (Select.recv message) = (sends, false) := by
    rw [iteration_recv_benign w m message (by rw [h]), h]
  rw [loop_cons_continue w m _ rest (by rw [hi]), hi]

/-- C4: for every subscription message without a transport error whose type
tag is data: if the body parses, `dealWithSentinelMessage` sends exactly the
parsed event on the master-switch channel, sends nothing on the
connection-event channel and reports not-fatal; if the body does not parse, as
with "mycluster 10.0.0.1 abc 10.0.0.2 6380", it sends nothing on either channel
and reports fatal, and the loop runs the shutdown sequence and exits. -/
theorem dealWithSentinelMessage_data (intSize : Nat) (m : Monitor) (message : RedisPubSubReply)
    (rest : List Select) (herr : message.Err = none)
    (ht : message.MessageType = MessageType.Message) :
    (∀ event, parseSwitchMasterMessage intSize message.Message = (event, none) →
      dealWithSentinelMessage intSize message = ([Action.SendSwitchMaster event], false)) ∧
    ((parseSwitchMasterMessage intSize message.Message).2 ≠ none →
      dealWithSentinelMessage intSize message = ([], true) ∧
      m.loop intSize (Select.recv message :: rest) =
        { trace := m.shutDownMonitor, exited := true, unhandled := rest }) ∧
    (message.Message = "mycluster 10.0.0.1 abc 10.0.0.2 6380" →
      dealWithSentinelMessage intSize message = ([], true) ∧
      m.loop intSize (Select.recv message :: rest) =
        { trace := m.shutDownMonitor, exited := true, unhandled := rest }) := by
  have hbad : (parseSwitchMasterMessage intSize message.Message).2 ≠ none →
      dealWithSentinelMessage intSize message = ([], true) ∧
      m.loop intSize (Select.recv message :: rest) =
        { trace := m.shutDownMonitor, exited := true, unhandled := rest } := by
    intro hp
    have hd := deal_message_unparsed intSize message herr ht hp
    exact ⟨hd, loop_recv_fatal intSize m message rest hd⟩
  refine ⟨fun event hp => deal_message_parsed intSize message event herr ht hp, hbad, ?_⟩
  intro hb
  apply hbad
  rw [hb]
  exact parse_abc intSize

/-- Witness of C4: a data message announcing a master switch. -/
theorem dealWithSentinelMessage_data_witness :
    dealWithSentinelMessage 64
        { Channel := "+switch-master", MessageType := MessageType.Message,
          Message := "mycluster 10.0.0.1 6379 10.0.0.2 6380", Err := none } =
      ([Action.SendSwitchMaster
          { Name := "mycluster", OldMasterIp := "10.0.0.1", OldMasterPort := 6379,
            NewMasterIp := "10.0.0.2", NewMasterPort := 6380 }], false) :=
  (dealWithSentinelMessage_data 64 { sentinel := { Location := "10.0.0.5:26379" } }
    { Channel := "+switch-master", MessageType := MessageType.Message,
      Message := "mycluster 10.0.0.1 6379 10.0.0.2 6380", Err := none } [] rfl rfl).1
    _ (by decide)

/-- C5: for every subscription message without a transport error whose type
tag is confirmation: if the body is "1", `dealWithSentinelMessage` sends exactly
one `ConnectionEvent` with `Connected` true on the connection-event channel,
sends nothing on the master-switch channel and reports not-fatal, and the loop
goes on with the next event; for every other body, "0" included, it sends
nothing and reports fatal, and the loop runs the shutdown sequence and exits. -/
theorem dealWithSentinelMessage_confirmation (intSize : Nat) (m : Monitor)
    (message : RedisPubSubReply) (rest : List Select) (herr : message.Err = none)
    (ht : message.MessageType = MessageType.Confirmation) :
    (message.Message = "1" →
      dealWithSentinelMessage intSize message =
        ([Action.SendConnection { Connected := true }], false) ∧
      m.loop intSize (Select.recv message :: rest) =
        { trace := [Action.SendConnection { Connected := true }] ++ (m.loop intSize rest).trace,
          exited := (m.loop intSize rest).exited,
          unhandled := (m.loop intSize rest).unhandled }) ∧
    (message.Message ≠ "1" →
      dealWithSentinelMessage intSize message = ([], true) ∧
      m.loop intSize (Select.recv message :: rest) =
        { trace := m.shutDownMonitor, exited := true, unhandled := rest }) ∧
    (message.Message = "0" →
      dealWithSentinelMessage intSize message = ([], true) ∧
      m.loop intSize (Select.recv message :: rest) =
        { trace := m.shutDownMonitor, exited := true, unhandled := rest }) := by
  have hother : message.Message ≠ "1" →
      dealWithSentinelMessage intSize message = ([], true) ∧
      m.loop intSize (Select.recv message :: rest) =
        { trace := m.shutDownMonitor, exited := true, unhandled := rest } := by
    intro hb
    have hd := deal_confirmation_other intSize message herr ht hb
    exact ⟨hd, loop_recv_fatal intSize m message rest hd⟩
  refine ⟨fun hb => ?_, hother, fun hb => hother (by rw [hb]; decide)⟩
  have hd := deal_confirmation_one intSize message herr ht hb
  exact ⟨hd, loop_recv_benign intSize m message rest _ hd⟩

/-- Witness of C5: the confirmation "1" on the switch-master topic. -/
theorem dealWithSentinelMessage_confirmation_witness :
    dealWithSentinelMessage 64
        { Channel := "+switch-master", MessageType := MessageType.Confirmation,
          Message := "1", Err := none } =
      ([Action.SendConnection { Connected := true }], false) :=
  ((dealWithSentinelMessage_confirmation 64 { sentinel := { Location := "10.0.0.5:26379" } }
    { Channel := "+switch-master", MessageType := MessageType.Confirmation,
      Message := "1", Err := none } [] rfl rfl).1 rfl).1

/-- C6: for every subscription message that carries a transport error,
whatever its type tag and body, `dealWithSentinelMessage` reports fatal and
sends nothing on either channel, and the loop runs the shutdown sequence and
exits without handling any later event. -/
theorem dealWithSentinelMessage_transport_error (intSize : Nat) (m : Monitor)
    (message : RedisPubSubReply) (rest : List Select) (herr : message.Err ≠ none) :
    dealWithSentinelMessage intSize message = ([], true) ∧
    m.loop intSize (Select.recv message :: rest) =
      { trace := [Action.Notify (Notification.SentinelLost m.sentinel), Action.ClientClose,
          Action.PubSubClose],
        exited := true, unhandled := rest } := by
  have hd := deal_transportError intSize message herr
  exact ⟨hd, loop_recv_fatal intSize m message rest hd⟩

/-- Witness of C6: a data message with a well-formed switch-master body that
carries a transport error. -/
theorem dealWithSentinelMessage_transport_error_witness :
    dealWithSentinelMessage 64
        { Channel := "+switch-master", MessageType := MessageType.Message,
          Message := "mycluster 10.0.0.1 6379 10.0.0.2 6380",
          Err := some (GoError.transport "EOF") } = ([], true) :=
  (dealWithSentinelMessage_transport_error 64 { sentinel := { Location := "10.0.0.5:26379" } }
    { Channel := "+switch-master", MessageType := MessageType.Message,
      Message := "mycluster 10.0.0.1 6379 10.0.0.2 6380",
      Err := some (GoError.transport "EOF") } [] (by decide)).1

/-! ## The health check (claims C7 and C8) -/

theorem peerDiscovery_cons (peers : Nat → List Sentinel) (i : Nat) (c : String)
    (cs : List String) :
    peerDiscovery peers i (c :: cs) =
      Action.FindConnectedSentinels c ::
        ((peers i).map (fun s => Action.Notify (Notification.SentinelAdded s)) ++
          peerDiscovery peers (i + 1) cs) := by
  simp [peerDiscovery, List.enumFrom]

theorem addedSentinels_added (l : List Sentinel) :
    addedSentinels (l.map (fun s => Action.Notify (Notification.SentinelAdded s))) = l := by
  induction l with
  | nil => rfl
  | cons a t ih =>
    unfold addedSentinels at ih ⊢
    rw [List.map_cons, List.filterMap_cons]
    simp only [Action.addedSentinel]
    rw [ih]

theorem queriedClusters_added (l : List Sentinel) :
    queriedClusters (l.map (fun s => Action.Notify (Notification.SentinelAdded s))) = [] := by
  induction l with
  | nil => rfl
  | cons a t ih =>
    unfold queriedClusters at ih ⊢
    rw [List.map_cons, List.filterMap_cons]
    simp only [Action.queriedCluster]
    rw [ih]

theorem addedSentinels_peerDiscovery (peers : Nat → List Sentinel) (cs : List String) :
    ∀ i, addedSentinels (peerDiscovery peers i cs) = (List.range' i cs.length).flatMap peers := by
  induction cs with
  | nil => intro i; rfl
  | cons c rest ih =>
    intro i
    rw [peerDiscovery_cons]
    have h := ih (i + 1)
    have ha := addedSentinels_added (peers i)
    unfold addedSentinels at h ha ⊢
    rw [List.filterMap_cons]
    simp only [Action.addedSentinel]
    rw [List.filterMap_append, h, ha]
    simp [List.range'_succ]

theorem queriedClusters_peerDiscovery (peers : Nat → List Sentinel) (cs : List String) :
    ∀ i, queriedClusters (peerDiscovery peers i cs) = cs := by
  induction cs with
  | nil => intro i; rfl
  | cons c rest ih =>
    intro i
    rw [peerDiscovery_cons]
    have h := ih (i + 1)
    have ha := queriedClusters_added (peers i)
    unfold queriedClusters at h ha ⊢
    rw [List.filterMap_cons]
    simp only [Action.queriedCluster]
    rw [List.filterMap_append, h, ha]
    rfl

theorem forEachCluster_first_failure (m : Monitor)
    (find : Nat → String → Except GoError (List Sentinel)) (peers : Nat → List Sentinel)
    (ck : String) (post : List String) (e : GoError) (pre : List String) :
    ∀ i, (∀ j (hj : j < pre.length), find (i + j) (pre.get ⟨j, hj⟩) = Except.ok (peers (i + j))) →
      find (i + pre.length) ck = Except.error e →
      forEachCluster m find i (pre ++ ck :: post) =
        (peerDiscovery peers i pre ++ Action.FindConnectedSentinels ck :: m.shutDownMonitor,
          true) := by
  induction pre with
  | nil =>
    intro i _ hk
    rw [List.nil_append, forEachCluster_cons_error m find i ck post e (by simpa using hk)]
    rfl
  | cons c rest ih =>
    intro i hpre hk
    have h0 : find i c = Except.ok (peers i) := by
      have := hpre 0 (by simp)
      simpa using this
    have hrec := ih (i + 1)
      (fun j hj => by
        have := hpre (j + 1) (by simp; omega)
        have e1 : i + (j + 1) = i + 1 + j := by omega
        rw [e1] at this
        simpa using this)
      (by
        have e1 : i + (c :: rest).length = i + 1 + rest.length := by simp; omega
        rw [← e1]; exact hk)
    rw [List.cons_append, forEachCluster_cons_ok m find i c _ (peers i) h0, hrec,
      peerDiscovery_cons]
    simp only [List.cons_append, List.append_assoc]

/-- C7: on a health check where the ping and the cluster discovery succeed,
the clusters returned are `pre`, then `ck`, then `post`, the peer discovery
succeeds on every cluster of `pre` (the `j`-th returning `peers j`) and fails on
`ck`: the effects are the ping, the two notifications and, for each cluster of
`pre` in order, the peer query followed by one `SentinelAdded` per peer in the
order returned, then the query for `ck` and the shutdown sequence; so the
`SentinelAdded` notifications are exactly those of the peers of `pre`, without
deduplication, `FindConnectedSentinels` is called for `pre` and `ck` and never
for `post`, and the loop exits. -/
theorem healthCheck_peer_discovery_failure (intSize : Nat) (m : Monitor) (t : Tick)
    (pre : List String) (ck : String) (post : List String) (peers : Nat → List Sentinel)
    (e : GoError) (rest : List Select)
    (hping : t.Ping = none)
    (hclusters : t.FindKnownClusters = Except.ok (pre ++ ck :: post))
    (hpre : ∀ j (hj : j < pre.length),
      t.FindConnectedSentinels j (pre.get ⟨j, hj⟩) = Except.ok (peers j))
    (hk : t.FindConnectedSentinels pre.length ck = Except.error e) :
    healthCheck m t =
      ([Action.Ping, Action.Notify (Notification.SentinelPing m.sentinel),
        Action.FindKnownClusters,
        Action.Notify (Notification.SentinelClustersMonitoredUpdate m.sentinel
          (pre ++ ck :: post))] ++
        peerDiscovery peers 0 pre ++
        [Action.FindConnectedSentinels ck, Action.Notify (Notification.SentinelLost m.sentinel),
          Action.ClientClose, Action.PubSubClose], true) ∧
    addedSentinels (healthCheck m t).1 = (List.range pre.length).flatMap peers ∧
    queriedClusters (healthCheck m t).1 = pre ++ [ck] ∧
    m.loop intSize (Select.after t :: rest) =
      { trace := (healthCheck m t).1, exited := true, unhandled := rest } := by
  have hfor := forEachCluster_first_failure m t.FindConnectedSentinels peers ck post e pre 0
    (fun j hj => by simpa using hpre j hj) (by simpa using hk)
  have hhc : healthCheck m t =
      ([Action.Ping, Action.Notify (Notification.SentinelPing m.sentinel),
        Action.FindKnownClusters,
        Action.Notify (Notification.SentinelClustersMonitoredUpdate m.sentinel
          (pre ++ ck :: post))] ++
        peerDiscovery peers 0 pre ++
        [Action.FindConnectedSentinels ck, Action.Notify (Notification.SentinelLost m.sentinel),
          Action.ClientClose, Action.PubSubClose], true) := by
    rw [healthCheck_clusters m t _ hping hclusters, hfor]
    simp [Monitor.shutDownMonitor]
  refine ⟨hhc, ?_, ?_, ?_⟩
  · rw [hhc]
    have h := addedSentinels_peerDiscovery peers pre 0
    unfold addedSentinels at h ⊢
    simp only [List.filterMap_append, h]
    simp [Action.addedSentinel, List.range_eq_range']
  · rw [hhc]
    have h := queriedClusters_peerDiscovery peers pre 0
    unfold queriedClusters at h ⊢
    simp only [List.filterMap_append, h]
    simp [Action.queriedCluster]
  · have hi : (iteration intSize m (Select.after t)).2 = true := by
      show (healthCheck m t).2 = true
      rw [hhc]
    rw [loop_cons_exit intSize m _ rest hi]
    rfl

/-- Witness of C7: the clusters alpha, beta, gamma, where the peers of alpha
are the same sentinel twice and the discovery fails on beta: both peers are
announced, gamma is never asked for, and the loop exits. -/
theorem healthCheck_peer_discovery_failure_witness :
    addedSentinels (healthCheck { sentinel := sampleSentinel } sampleTick).1 =
      [samplePeer, samplePeer] ∧
    queriedClusters (healthCheck { sentinel := sampleSentinel } sampleTick).1 =
      ["alpha", "beta"] ∧
    (Monitor.loop 64 { sentinel := sampleSentinel }
      (Select.after sampleTick :: [Select.recv sampleConfirmation])).exited = true := by
  have h := healthCheck_peer_discovery_failure 64 { sentinel := sampleSentinel } sampleTick
    ["alpha"] "beta" ["gamma"] (fun _ => [samplePeer, samplePeer])
    (GoError.transport "i/o timeout") [Select.recv sampleConfirmation] rfl rfl
    (fun j hj => by
      have hj0 : j = 0 := by simpa using hj
      subst hj0
      rfl)
    rfl
  refine ⟨h.2.1, h.2.2.1, ?_⟩
  rw [h.2.2.2]

/-- C8: on every health check on which the ping fails, whatever the loop has
handled before without exiting, the loop exits; the effects of that check are
the ping followed by the shutdown sequence, so `SentinelLost` is notified once
(it occurs nowhere earlier in the run), no `SentinelPing` notification is
emitted on that check, and no cluster discovery, cluster-list notification or
peer discovery takes place; later events are not handled. -/
theorem loop_ping_failure (intSize : Nat) (m : Monitor) (before : List Select) (t : Tick)
    (e : GoError) (rest : List Select)
    (hrun : (m.loop intSize before).exited = false) (hping : t.Ping = some e) :
    healthCheck m t =
      ([Action.Ping, Action.Notify (Notification.SentinelLost m.sentinel), Action.ClientClose,
        Action.PubSubClose], true) ∧
    m.loop intSize (before ++ Select.after t :: rest) =
      { trace := (m.loop intSize before).trace ++
          [Action.Ping, Action.Notify (Notification.SentinelLost m.sentinel), Action.ClientClose,
            Action.PubSubClose],
        exited := true, unhandled := rest } ∧
    ∀ s, Action.Notify (Notification.SentinelLost s) ∉ (m.loop intSize before).trace := by
  have hhc : healthCheck m t =
      ([Action.Ping, Action.Notify (Notification.SentinelLost m.sentinel), Action.ClientClose,
        Action.PubSubClose], true) := by
    rw [healthCheck_pingFailed m t e hping]
    rfl
  have hi : (iteration intSize m (Select.after t)).2 = true := by
    show (healthCheck m t).2 = true
    rw [hhc]
  have hi1 : (iteration intSize m (Select.after t)).1 = (healthCheck m t).1 := rfl
  refine ⟨hhc, ?_, ?_⟩
  · rw [loop_append_of_not_exited intSize m before _ hrun, loop_cons_exit intSize m _ rest hi,
      hi1, hhc]
  · intro s hs
    have hclean := (loop_shape intSize m before).2 hrun
    exact absurd (hclean _ hs) (by simp [Action.isShutdown])

/-- Witness of C8: a confirmed subscription, then a health check whose ping
fails, then another confirmation that is never handled. -/
theorem loop_ping_failure_witness :
    (Monitor.loop 64 { sentinel := sampleSentinel } [Select.recv sampleConfirmation]).exited
      = false ∧
    (Monitor.loop 64 { sentinel := sampleSentinel }
      ([Select.recv sampleConfirmation] ++
        Select.after samplePingFailure :: [Select.recv sampleConfirmation])).trace =
      [Action.SendConnection { Connected := true }, Action.Ping,
        Action.Notify (Notification.SentinelLost sampleSentinel), Action.ClientClose,
        Action.PubSubClose] := by
  refine ⟨by decide, ?_⟩
  rw [(loop_ping_failure 64 { sentinel := sampleSentinel } [Select.recv sampleConfirmation]
    samplePingFailure (GoError.transport "i/o timeout") [Select.recv sampleConfirmation]
    (by decide) rfl).2.1]
  decide

/-! ## Construction and start-up (claims C9 and C10) -/

/-- C9, the code at the failing input: when the subscription connection opens
and the command-client connection is refused, `NewMonitor` returns no monitor
and the error, having opened the subscription connection and never closed it:
that connection is left open. -/
theorem NewMonitor_leaves_subscription_open (sentinel : Sentinel) (tcpKeepAlive : Int) :
    NewMonitor sentinel sampleHalfOpenConnection tcpKeepAlive =
      ((none, some (GoError.transport "connection refused")),
        [Action.NewPubSubClient sentinel.GetLocation true,
          Action.NewSentinelClient sentinel false]) ∧
    Action.PubSubClose ∉ (NewMonitor sentinel sampleHalfOpenConnection tcpKeepAlive).2 ∧
    pubSubOpen (NewMonitor sentinel sampleHalfOpenConnection tcpKeepAlive).2 = true := by
  refine ⟨rfl, ?_, rfl⟩
  simp [NewMonitor, sampleHalfOpenConnection]

/-- C10, the code at the failing input: on a monitor whose two connections
have opened, when the subscribe request fails, `StartMonitoringMasterEvents`
returns the error after closing the subscription connection only: the loop is
not started, and the command-client connection stays open while the
subscription connection is closed. -/
theorem StartMonitoringMasterEvents_closes_subscription_only (intSize : Nat)
    (sentinel : Sentinel) (tcpKeepAlive : Int) (err : GoError) (events : List Select) :
    NewMonitor sentinel sampleConnection tcpKeepAlive =
      ((some { sentinel := sentinel }, none),
        [Action.NewPubSubClient sentinel.GetLocation true,
          Action.NewSentinelClient sentinel true]) ∧
    Monitor.StartMonitoringMasterEvents intSize { sentinel := sentinel } (some err) events =
      (some err, [Action.PubSubStart "+switch-master", Action.PubSubClose]) ∧
    pubSubOpen ((NewMonitor sentinel sampleConnection tcpKeepAlive).2 ++
      (Monitor.StartMonitoringMasterEvents intSize { sentinel := sentinel } (some err)
        events).2) = false ∧
    clientOpen ((NewMonitor sentinel sampleConnection tcpKeepAlive).2 ++
      (Monitor.StartMonitoringMasterEvents intSize { sentinel := sentinel } (some err)
        events).2) = true :=
  ⟨rfl, rfl, rfl, rfl⟩

end Redishappy
